import Mathlib

/-!
Verification of the EdgeGrid request-signing engine and credential-resolution
subsystem of the `akamai-sdk-go` repository, as a shallow embedding in Lean.

Bytes are modelled as `List Nat` (each entry a byte value), Go strings as
Lean `String` with explicit UTF-8 encoding when converted to bytes, and
machine integers as `Nat` with explicit reduction modulo `2^32` where the
Go code relies on 32-bit overflow (inside SHA-256).
-/

namespace Akamai

/-- Truncate a natural number to a 32-bit word, as Go's `uint32` arithmetic does. -/
def w32 (n : Nat) : Nat := n % 4294967296

/-- UTF-8 encoding of a single character, as Go's `[]byte(string)` conversion
produces for each rune. -/
def utf8Char (c : Char) : List Nat :=
  let n := c.toNat
  if n < 128 then [n]
  else if n < 2048 then
    [192 ||| (n >>> 6), 128 ||| (n &&& 63)]
  else if n < 65536 then
    [224 ||| (n >>> 12), 128 ||| ((n >>> 6) &&& 63), 128 ||| (n &&& 63)]
  else
    [240 ||| (n >>> 18), 128 ||| ((n >>> 12) &&& 63), 128 ||| ((n >>> 6) &&& 63),
     128 ||| (n &&& 63)]

/-- Go's `[]byte(s)`: the UTF-8 bytes of the string. -/
def strBytes (s : String) : List Nat := s.data.flatMap utf8Char

/-- Big-endian byte rendering of a value in `w` bytes (most significant first). -/
def bytesBE : Nat → Nat → List Nat
  | 0, _ => []
  | w + 1, v => bytesBE w (v >>> 8) ++ [v &&& 255]

/-- Right rotation of a 32-bit word. -/
def rotr (n x : Nat) : Nat := w32 ((x >>> n) ||| (x <<< (32 - n)))

/-- SHA-256 Ch function; Go's `^x` complement is modelled as xor with `2^32 - 1`. -/
def shaCh (x y z : Nat) : Nat := (x &&& y) ^^^ ((x ^^^ 4294967295) &&& z)

/-- SHA-256 Maj function. -/
def shaMaj (x y z : Nat) : Nat := (x &&& y) ^^^ (x &&& z) ^^^ (y &&& z)

/-- SHA-256 big sigma 0. -/
def bsig0 (x : Nat) : Nat := rotr 2 x ^^^ rotr 13 x ^^^ rotr 22 x

/-- SHA-256 big sigma 1. -/
def bsig1 (x : Nat) : Nat := rotr 6 x ^^^ rotr 11 x ^^^ rotr 25 x

/-- SHA-256 small sigma 0. -/
def ssig0 (x : Nat) : Nat := rotr 7 x ^^^ rotr 18 x ^^^ (x >>> 3)

/-- SHA-256 small sigma 1. -/
def ssig1 (x : Nat) : Nat := rotr 17 x ^^^ rotr 19 x ^^^ (x >>> 10)

/-- The 64 SHA-256 round constants of FIPS 180-4, in decimal. -/
def shaK : List Nat :=
  [1116352408, 1899447441, 3049323471, 3921009573, 961987163,
   1508970993, 2453635748, 2870763221, 3624381080, 310598401,
   607225278, 1426881987, 1925078388, 2162078206, 2614888103,
   3248222580, 3835390401, 4022224774, 264347078, 604807628,
   770255983, 1249150122, 1555081692, 1996064986, 2554220882,
   2821834349, 2952996808, 3210313671, 3336571891, 3584528711,
   113926993, 338241895, 666307205, 773529912, 1294757372,
   1396182291, 1695183700, 1986661051, 2177026350, 2456956037,
   2730485921, 2820302411, 3259730800, 3345764771, 3516065817,
   3600352804, 4094571909, 275423344, 430227734, 506948616,
   659060556, 883997877, 958139571, 1322822218, 1537002063,
   1747873779, 1955562222, 2024104815, 2227730452, 2361852424,
   2428436474, 2756734187, 3204031479, 3329325298]

/-- The eight SHA-256 initial hash words of FIPS 180-4, in decimal. -/
def shaH0 : List Nat :=
  [1779033703, 3144134277, 1013904242, 2773480762, 1359893119,
   2600822924, 528734635, 1541459225]

/-- SHA-256 message padding: append `0x80`, zeros to 56 mod 64, then the
8-byte big-endian bit length. -/
def padMessage (msg : List Nat) : List Nat :=
  let len := msg.length
  let kZeros := (119 - len % 64) % 64
  msg ++ [128] ++ List.replicate kZeros 0 ++ bytesBE 8 (8 * len)

/-- Group a byte list into big-endian 32-bit words, four bytes per word. -/
def toWordsBE : List Nat → List Nat
  | a :: b :: c :: d :: rest => (((a * 256 + b) * 256 + c) * 256 + d) :: toWordsBE rest
  | _ => []

/-- Extend a 16-word block by `fuel` more schedule words. -/
def extendWords (ws : List Nat) : Nat → List Nat
  | 0 => ws
  | fuel + 1 =>
    let n := ws.length
    let newWord := w32 (ssig1 (ws.getD (n - 2) 0) + ws.getD (n - 7) 0 +
                        ssig0 (ws.getD (n - 15) 0) + ws.getD (n - 16) 0)
    extendWords (ws ++ [newWord]) fuel

/-- One SHA-256 compression round step on the eight working variables. -/
def shaRound (state : List Nat) (kw : Nat × Nat) : List Nat :=
  match state with
  | [a, b, c, d, e, f, g, h] =>
    let t1 := w32 (h + bsig1 e + shaCh e f g + kw.1 + kw.2)
    let t2 := w32 (bsig0 a + shaMaj a b c)
    [w32 (t1 + t2), a, b, c, w32 (d + t1), e, f, g]
  | s => s

/-- SHA-256 compression of one 64-byte block into the running hash. -/
def shaCompress (hs : List Nat) (block : List Nat) : List Nat :=
  let ws := extendWords (toWordsBE block) 48
  let final := (shaK.zip ws).foldl shaRound hs
  (hs.zip final).map (fun p => w32 (p.1 + p.2))

/-- Split a byte list into 64-byte chunks. -/
def chunk64 (l : List Nat) : List (List Nat) :=
  if h : l = [] then []
  else l.take 64 :: chunk64 (l.drop 64)
termination_by l.length
decreasing_by
  have h1 : 0 < l.length := List.length_pos.mpr h
  simp [List.length_drop]
  omega

/-- SHA-256 of a byte list, producing the 32 digest bytes. -/
def sha256 (msg : List Nat) : List Nat :=
  ((chunk64 (padMessage msg)).foldl shaCompress shaH0).flatMap (bytesBE 4)

/-- HMAC-SHA256 as implemented by Go's `crypto/hmac` with a SHA-256 hash:
keys longer than the 64-byte block are first hashed, the key is zero-padded
to 64 bytes, and the digest is `H(opad ++ H(ipad ++ msg))`. -/
def hmacSha256 (key msg : List Nat) : List Nat :=
  let k0 := if key.length > 64 then sha256 key else key
  let k1 := k0 ++ List.replicate (64 - k0.length) 0
  let ipad := k1.map (fun b => b ^^^ 54)
  let opad := k1.map (fun b => b ^^^ 92)
  sha256 (opad ++ sha256 (ipad ++ msg))

/-- The standard base64 alphabet used by Go's `encoding/base64` StdEncoding. -/
def b64Char (n : Nat) : Char :=
  "ABCDEFGHIJKLMNOPQRSTUVWXYZabcdefghijklmnopqrstuvwxyz0123456789+/".data.getD n 'A'

/-- Base64 encoding with `=` padding (Go's `base64.StdEncoding.EncodeToString`). -/
def base64Encode : List Nat → String
  | [] => ""
  | [a] =>
    String.mk [b64Char (a >>> 2), b64Char ((a &&& 3) <<< 4), '=', '=']
  | [a, b] =>
    String.mk [b64Char (a >>> 2), b64Char (((a &&& 3) <<< 4) ||| (b >>> 4)),
               b64Char ((b &&& 15) <<< 2), '=']
  | a :: b :: c :: rest =>
    String.mk [b64Char (a >>> 2), b64Char (((a &&& 3) <<< 4) ||| (b >>> 4)),
               b64Char (((b &&& 15) <<< 2) ||| (c >>> 6)), b64Char (c &&& 63)] ++
    base64Encode rest

/-! ### Go string helpers used by the signing code -/

/-- Go's `unicode.IsSpace`: the Unicode White_Space code points. -/
def isSpaceGo (c : Char) : Bool :=
  let n := c.toNat
  n == 0x20 || n == 0x9 || n == 0xA || n == 0xB || n == 0xC || n == 0xD ||
  n == 0x85 || n == 0xA0 || n == 0x1680 ||
  (decide (0x2000 ≤ n) && decide (n ≤ 0x200A)) ||
  n == 0x2028 || n == 0x2029 || n == 0x202F || n == 0x205F || n == 0x3000

/-- Go's `strings.TrimSpace`: drop leading and trailing White_Space runes. -/
def trimSpaceGo (s : String) : String :=
  String.mk (((s.data.dropWhile isSpaceGo).reverse.dropWhile isSpaceGo).reverse)

/-- Go's `strings.ToLower` restricted to its ASCII action (the header names and
values this protocol feeds it are ASCII; `Char.toLower` lowercases exactly
the ASCII uppercase letters). -/
def toLowerGo (s : String) : String := String.mk (s.data.map Char.toLower)

/-- The rune loop of `stringMinifier` in part_003: every run of whitespace
becomes a single space, tracked by the `white` flag. -/
def stringMinifierGo : List Char → Bool → List Char
  | [], _ => []
  | c :: rest, white =>
    if isSpaceGo c then
      (if white then [] else [' ']) ++ stringMinifierGo rest true
    else
      c :: stringMinifierGo rest false

/-- `stringMinifier` from part_003: collapse each whitespace run to one space. -/
def stringMinifier (s : String) : String := String.mk (stringMinifierGo s.data false)

/-- Go's `strings.Join` with a separator. -/
def joinStrings (sep : String) : List String → String
  | [] => ""
  | [x] => x
  | x :: xs => x ++ sep ++ joinStrings sep xs

/-- Insert a string into a sorted list (ascending). -/
def insertStr (x : String) : List String → List String
  | [] => [x]
  | y :: ys => if x ≤ y then x :: y :: ys else y :: insertStr x ys

/-- Go's `sort.Strings`: sort ascending in byte order (for UTF-8 strings the
code-point order used by Lean's `String` order coincides with byte order). -/
def sortStrings : List String → List String
  | [] => []
  | x :: xs => insertStr x (sortStrings xs)

/-- `%02d` of `fmt.Sprintf`: zero-pad to two digits. -/
def pad2 (n : Nat) : String := if n < 10 then "0" ++ toString n else toString n

/-! ### HTTP request model -/

/-- The fields of Go's `url.URL` read by the signing code. -/
structure URL where
  Scheme : String
  Host : String
  Path : String
  RawQuery : String
deriving DecidableEq, Repr

/-- Go's `http.Header`, modelled as an association list of the map's entries
(names stored in their canonical form, value = first value of the key). -/
abbrev Header := List (String × String)

/-- `http.Header.Get`: the value stored under the key, or `""` if absent. -/
def headerGet (h : Header) (k : String) : String :=
  match h.find? (fun p => p.1 == k) with
  | some p => p.2
  | none => ""

/-- `http.Header.Set`: replace the value stored under the key, or append it. -/
def headerSet (h : Header) (k v : String) : Header :=
  if h.any (fun p => p.1 == k) then
    h.map (fun p => if p.1 == k then (k, v) else p)
  else h ++ [(k, v)]

/-- The fields of Go's `http.Request` read or written by the signing code.
`Body` is the byte content of the request's body stream (`none` = nil body). -/
structure Request where
  Method : String
  URL : URL
  Header : Header
  Body : Option (List Nat)
deriving DecidableEq, Repr

/-! ### Credential value and errors -/

/-- `credentials.AuthValue`. -/
structure AuthValue where
  ClientSecret : String := ""
  ClientToken : String := ""
  AccessToken : String := ""
  Host : String := ""
  ProviderName : String := ""
deriving DecidableEq, Repr

/-- The named package-level error values of the credentials package, plus a
catch-all for other Go errors. -/
inductive CredErr where
  | errStaticCredentialsEmpty
  | errSharedCredentialsNotFoundFile
  | errSharedCredentialsProfileNotFound
  | errClientSecretNotFoundFile
  | errClientTokenNotFoundFile
  | errAccessTokenNotFoundFile
  | errAkamaiHostNotFoundFile
  | errClientSecretNotFoundEnv
  | errClientTokenNotFoundEnv
  | errAccessTokenNotFoundEnv
  | errAkamaiHostNotFoundEnv
  | other (msg : String)
deriving DecidableEq, Repr

/-! ### Credentials cache (credentials.go)

Go's `(AuthValue, error)` return pairs are modelled as
`AuthValue × Option CredErr` (the error is `none` on success). The
`sync.RWMutex` serializes every refresh; `credGet` is the body of
`Credentials.Get` as executed by one caller holding the lock. -/

/-- The `credentials.Provider` interface over an explicit provider state `σ`:
`retrieve` returns the Go pair and the provider's updated state. -/
structure Provider (σ : Type) where
  retrieve : σ → (AuthValue × Option CredErr) × σ
  isExpired : σ → Bool

/-- The mutable fields of `credentials.Credentials`. -/
structure CredState (σ : Type) where
  creds : AuthValue
  forceRefresh : Bool
  provState : σ
deriving Repr

/-- `Credentials.isExpired`: force-refresh is set or the provider reports expired. -/
def isExpiredC {σ : Type} (p : Provider σ) (c : CredState σ) : Bool :=
  c.forceRefresh || p.isExpired c.provState

/-- `NewCredentials`: zero cached value, force-refresh set. -/
def newCredentials {σ : Type} (s : σ) : CredState σ :=
  { creds := {}, forceRefresh := true, provState := s }

/-- `Credentials.Get`: fast path returns the cached value when not expired;
the slow path re-checks expiry under the exclusive lock, then calls the
provider's `Retrieve`. On provider failure the zero `AuthValue` and the
error are returned and `forceRefresh` is left untouched; on success the new
value replaces the cache wholesale and `forceRefresh` is cleared. -/
def credGet {σ : Type} (p : Provider σ) (c : CredState σ) :
    (AuthValue × Option CredErr) × CredState σ :=
  if isExpiredC p c = false then
    ((c.creds, none), c)
  else
    if isExpiredC p c then
      match p.retrieve c.provState with
      | ((_, some e), s') => (({}, some e), { c with provState := s' })
      | ((v, none), s') =>
        let c' : CredState σ := { creds := v, forceRefresh := false, provState := s' }
        ((c'.creds, none), c')
    else
      ((c.creds, none), c)

/-- `Credentials.Expire`: unconditionally set force-refresh. -/
def credExpire {σ : Type} (c : CredState σ) : CredState σ :=
  { c with forceRefresh := true }

/-- N serialized `Get` calls (the exclusive lock serializes all refreshes):
the list of each caller's result, with the final cache state. -/
def credGetN {σ : Type} (p : Provider σ) (c : CredState σ) :
    Nat → List (AuthValue × Option CredErr) × CredState σ
  | 0 => ([], c)
  | n + 1 =>
    let (r, c') := credGet p c
    let (rs, c'') := credGetN p c' n
    (r :: rs, c'')

/-- Ghost instrumentation: pair the provider state with a counter of
`Retrieve` invocations, without changing any behaviour. -/
def instrument {σ : Type} (p : Provider σ) : Provider (σ × Nat) :=
  { retrieve := fun s =>
      let (r, s') := p.retrieve s.1
      (r, (s', s.2 + 1)),
    isExpired := fun s => p.isExpired s.1 }

/-! ### Signing context (part_003)

`buildTime` reads the wall clock and `buildNonce` draws a random UUID; both
are modelled by oracle inputs (`now`, `uuid`) threaded into `build`, used
only when the caller did not fix a timestamp or nonce. The `Query` field of
the Go struct (`req.URL.Query()`) is never read by any build step and is
omitted. -/

/-- The wall-clock reading consumed by `buildTime` (already in the GMT zone). -/
structure DateTime where
  year : Nat
  month : Nat
  day : Nat
  hour : Nat
  minute : Nat
  second : Nat
deriving Repr

/-- The `signingCtx` struct of part_003: the request, the unused `Body`
argument, the credential value, the caller-fixed timestamp/nonce ("" when
unset), the limits, and the intermediate strings (zero values until built). -/
structure signingCtx where
  Request : Request
  Body : Option (List Nat)
  SignedHeaderVals : Option Header := none
  credValues : AuthValue
  formattedTime : String := ""
  nonce : String := ""
  maxBody : Nat := 0
  headersToSign : List String := []
  contentHash : String := ""
  canonicalHeaders : String := ""
  pathQuery : String := ""
  authHeaders : String := ""
  signedAuthHeaders : String := ""
  signingData : String := ""
  signingKey : String := ""
deriving Repr

/-- `createSignature`: base64 of the HMAC-SHA256 of `data` keyed by `key`. -/
def createSignature (data key : String) : String :=
  base64Encode (hmacSha256 (strBytes key) (strBytes data))

/-- `signingCtx.buildTime`: format the clock as `YYYYMMDDTHH:MM:SS+0000`
(`fmt.Sprintf "%d%02d%02dT%02d:%02d:%02d+0000"`). -/
def signingCtx.buildTime (now : DateTime) (ctx : signingCtx) : signingCtx :=
  { ctx with formattedTime :=
      (toString now.year ++ pad2 now.month ++ pad2 now.day ++ "T" ++
       pad2 now.hour ++ ":" ++ pad2 now.minute ++ ":" ++ pad2 now.second ++ "+0000") }

/-- `signingCtx.buildNonce`: store the freshly drawn UUID string. -/
def signingCtx.buildNonce (uuid : String) (ctx : signingCtx) : signingCtx :=
  { ctx with nonce := uuid }

/-- The path+query string of `signingCtx.buildPathQuery` in part_003: the
path alone when the raw query is empty, else `path?rawquery`. -/
def buildPathQueryStr (u : URL) : String :=
  if u.RawQuery = "" then u.Path
  else u.Path ++ "?" ++ u.RawQuery

/-- `signingCtx.buildPathQuery` (part_003). -/
def signingCtx.buildPathQuery (ctx : signingCtx) : signingCtx :=
  { ctx with pathQuery := buildPathQueryStr ctx.Request.URL }


/-- The path+query computed by `buildPathQuery` in `src/akamai/authentication.go`:
the branch for an empty raw query assigns the bare path but lacks a `return`,
so the following `Sprintf` unconditionally overwrites it with
`path + "?" + rawquery` (a dead store). -/
def buildPathQueryAuthStr (u : URL) : String :=
  u.Path ++ "?" ++ u.RawQuery

/-- One entry of the canonical header string: lowercased name, `:`, the
header value trimmed, whitespace-collapsed and lowercased. -/
def canonEntry (hdr : Header) (k : String) : String :=
  let v := trimSpaceGo (headerGet hdr k)
  toLowerGo k ++ ":" ++ toLowerGo (stringMinifier v)

/-- The canonical header string of `signingCtx.buildCanonicalHeaders`
(part_003): sort all header names, keep for each name one entry per
headers-to-sign element equal to it (`sign == k`, exact match), tab-join. -/
def buildCanonicalHeadersStr (hdr : Header) (hts : List String) : String :=
  let sorted := sortStrings (hdr.map Prod.fst)
  let entries := sorted.flatMap (fun k =>
    (hts.filter (fun sign => sign == k)).map (fun _ => canonEntry hdr k))
  joinStrings "\t" entries

/-- `signingCtx.buildCanonicalHeaders` (part_003). -/
def signingCtx.buildCanonicalHeaders (ctx : signingCtx) : signingCtx :=
  { ctx with canonicalHeaders :=
      (buildCanonicalHeadersStr ctx.Request.Header ctx.headersToSign) }

/-- `signingCtx.buildContentHash` (part_003): read the request's own body
(restoring the stream afterwards); when the method is POST and the body is
non-empty, hash the body truncated to `maxBody` bytes and base64 the digest,
else leave the hash empty. -/
def signingCtx.buildContentHash (ctx : signingCtx) : signingCtx :=
  let bodyBytes : List Nat :=
    match ctx.Request.Body with
    | some b => b
    | none => []
  let req' : Akamai.Request :=
    match ctx.Request.Body with
    | some b => { ctx.Request with Body := some b }
    | none => ctx.Request
  let preparedBody := bodyBytes
  let contentHash :=
    if ctx.Request.Method = "POST" ∧ preparedBody.length > 0 then
      let pb := if preparedBody.length > ctx.maxBody
                then preparedBody.take ctx.maxBody else preparedBody
      base64Encode (sha256 pb)
    else ""
  { ctx with Request := req', contentHash := contentHash }

/-- `signingCtx.buildAuthHeaders`: the auth-header preamble
`EG1-HMAC-SHA256 client_token=..;access_token=..;timestamp=..;nonce=..;`. -/
def signingCtx.buildAuthHeaders (ctx : signingCtx) : signingCtx :=
  { ctx with authHeaders :=
      ("EG1-HMAC-SHA256 client_token=" ++ ctx.credValues.ClientToken ++
       ";access_token=" ++ ctx.credValues.AccessToken ++
       ";timestamp=" ++ ctx.formattedTime ++
       ";nonce=" ++ ctx.nonce ++ ";") }

/-- `signingCtx.buildSigningKey`: the signing key is
`createSignature(formattedTime, clientSecret)` — the timestamp is the HMAC
message and the client secret the HMAC key. -/
def signingCtx.buildSigningKey (ctx : signingCtx) : signingCtx :=
  { ctx with signingKey := createSignature ctx.formattedTime ctx.credValues.ClientSecret }

/-- `signingCtx.buildSigningData`: tab-join of method, scheme, host,
path+query, canonical headers, content hash and the auth-header preamble. -/
def signingCtx.buildSigningData (ctx : signingCtx) : signingCtx :=
  { ctx with signingData :=
      (joinStrings "\t"
        [ctx.Request.Method, ctx.Request.URL.Scheme, ctx.Request.URL.Host,
         ctx.pathQuery, ctx.canonicalHeaders, ctx.contentHash, ctx.authHeaders]) }

/-- `signingCtx.buildSignedAuthHeaders`: final header value is the preamble
followed by `signature=` and `createSignature(signingData, signingKey)`. -/
def signingCtx.buildSignedAuthHeaders (ctx : signingCtx) : signingCtx :=
  { ctx with signedAuthHeaders :=
      (ctx.authHeaders ++ "signature=" ++ createSignature ctx.signingData ctx.signingKey) }

/-- `signingCtx.build` (part_003): run the build steps in source order and
write the result into the request's `Authorization` header. The Go method
always returns a nil error. -/
def build (now : DateTime) (uuid : String) (ctx : signingCtx) : signingCtx :=
  let ctx := if ctx.formattedTime = "" then ctx.buildTime now else ctx
  let ctx := if ctx.nonce = "" then ctx.buildNonce uuid else ctx
  let ctx := ctx.buildPathQuery
  let ctx := ctx.buildCanonicalHeaders
  let ctx := ctx.buildContentHash
  let ctx := ctx.buildAuthHeaders
  let ctx := ctx.buildSigningKey
  let ctx := ctx.buildSigningData
  let ctx := ctx.buildSignedAuthHeaders
  { ctx with Request :=
      ({ ctx.Request with
         Header := headerSet ctx.Request.Header "Authorization" ctx.signedAuthHeaders }) }

/-! ### Signer façade (part_003) -/

/-- The configuration fields of `akamai.Signer` (the credentials cache is
passed separately as a `Provider`/`CredState` pair). -/
structure Signer where
  HeadersToSign : List String := []
  MaxBody : Nat := 0
  Timestamp : String := ""
  Nonce : String := ""
deriving Repr

/-- Everything `Signer.Sign` produces: the returned header set and error,
the request after its in-place mutation, and the credential cache state. -/
structure SignResult (σ : Type) where
  headers : Option Header
  error : Option CredErr
  request : Request
  cache : CredState σ

/-- The signing context `Sign` constructs before calling `build`, including
the `maxBody` defaulting (0 becomes 131072). -/
def signCtxOf (s : Signer) (creds : AuthValue) (req : Request)
    (body : Option (List Nat)) : signingCtx :=
  let ctx : signingCtx :=
    { Request := req, Body := body, credValues := creds,
      formattedTime := s.Timestamp, nonce := s.Nonce,
      maxBody := s.MaxBody, headersToSign := s.HeadersToSign }
  if ctx.maxBody = 0 then { ctx with maxBody := 131072 } else ctx

/-- `Signer.Sign` (part_003): get credentials from the cache (returning the
empty header set `http.Header{}` with the cache's error on failure), build
the signing context, and return `ctx.SignedHeaderVals` — a field no build
step ever assigns — with a nil error. -/
def Signer.Sign {σ : Type} (p : Provider σ) (s : Signer) (cache : CredState σ)
    (req : Request) (body : Option (List Nat)) (now : DateTime) (uuid : String) :
    SignResult σ :=
  match credGet p cache with
  | ((_, some e), cache') =>
    { headers := some [], error := some e, request := req, cache := cache' }
  | ((creds, none), cache') =>
    let ctx := build now uuid (signCtxOf s creds req body)
    { headers := ctx.SignedHeaderVals, error := none,
      request := ctx.Request, cache := cache' }

/-! ### Shared-file credentials provider (shared_credentials_provider.go)

The INI document is modelled as sections of key/value lists; the file system
and the process environment are oracle functions (`none` = load failure,
`""` = unset variable). -/

/-- A parsed INI-style credentials file: named sections of key/value pairs. -/
abbrev IniFile := List (String × List (String × String))

/-- `ini.Section.GetKey` composed with `.String()`: the raw value, if the key
is present. -/
def iniKey (sec : List (String × String)) (k : String) : Option String :=
  match sec.find? (fun p => p.1 == k) with
  | some p => some p.2
  | none => none

/-- `ini.File.GetSection`. -/
def iniSection (f : IniFile) (name : String) : Option (List (String × String)) :=
  match f.find? (fun p => p.1 == name) with
  | some p => some p.2
  | none => none

/-- `loadProfile` (shared_credentials_provider.go): its error for a missing or
empty `access_token` is `ErrClientTokenNotFoundFile`, exactly as in the
source (the declared `ErrAccessTokenNotFoundFile` is never used there). -/
def loadProfile (fs : String → Option IniFile) (filename profile : String) :
    AuthValue × Option CredErr :=
  match fs filename with
  | none => ({ ProviderName := "SharedCredentialsProvider" },
             some .errSharedCredentialsNotFoundFile)
  | some config =>
  match iniSection config profile with
  | none => ({ ProviderName := "SharedCredentialsProvider" },
             some .errSharedCredentialsProfileNotFound)
  | some iniProfile =>
  match iniKey iniProfile "client_secret" with
  | none => ({ ProviderName := "SharedCredentialsProvider" },
             some .errClientSecretNotFoundFile)
  | some cs =>
  if cs.length = 0 then
    ({ ProviderName := "SharedCredentialsProvider" }, some .errClientSecretNotFoundFile)
  else
  match iniKey iniProfile "client_token" with
  | none => ({ ProviderName := "SharedCredentialsProvider" },
             some .errClientTokenNotFoundFile)
  | some ct =>
  if ct.length = 0 then
    ({ ProviderName := "SharedCredentialsProvider" }, some .errClientTokenNotFoundFile)
  else
  match iniKey iniProfile "access_token" with
  | none => ({ ProviderName := "SharedCredentialsProvider" },
             some .errClientTokenNotFoundFile)
  | some at' =>
  if at'.length = 0 then
    ({ ProviderName := "SharedCredentialsProvider" }, some .errClientTokenNotFoundFile)
  else
  match iniKey iniProfile "host" with
  | none => ({ ProviderName := "SharedCredentialsProvider" },
             some .errAkamaiHostNotFoundFile)
  | some h =>
  if h.length = 0 then
    ({ ProviderName := "SharedCredentialsProvider" }, some .errAkamaiHostNotFoundFile)
  else
    ({ ClientSecret := cs, ClientToken := ct, AccessToken := at', Host := h,
       ProviderName := "SharedCredentialsProvider" }, none)

/-- The fields of `SharedCredentialsProvider`. -/
structure SharedCredentialsProvider where
  Filename : String := ""
  Profile : String := ""
  retrieved : Bool := false
deriving DecidableEq, Repr

/-- `SharedCredentialsProvider.filename`: explicit path, else the
`AKAMAI_ENVRC_FILE` environment override (stored back into the struct),
else `.edgerc` under the home directory (`none` home = homedir error). -/
def sharedFilename (env : String → String) (home : Option String)
    (p : SharedCredentialsProvider) :
    (Option String × Option CredErr) × SharedCredentialsProvider :=
  if p.Filename.length ≠ 0 then ((some p.Filename, none), p)
  else
    let fromEnv := env "AKAMAI_ENVRC_FILE"
    if fromEnv.length ≠ 0 then ((some fromEnv, none), { p with Filename := fromEnv })
    else
      match home with
      | none => ((none, some (.other "could not find user's homedir")), p)
      | some h => ((some (h ++ "/.edgerc"), none), p)

/-- `SharedCredentialsProvider.profile`: explicit name, else the
`AKAMAI_PROFILE` environment override, else `"default"` (stored back). -/
def sharedProfile (env : String → String) (p : SharedCredentialsProvider) :
    String × SharedCredentialsProvider :=
  let p := if p.Profile = "" then { p with Profile := env "AKAMAI_PROFILE" } else p
  let p := if p.Profile = "" then { p with Profile := "default" } else p
  (p.Profile, p)

/-- `SharedCredentialsProvider.Retrieve`: clear `retrieved`, resolve the file
name and profile, load the profile, and mark `retrieved` only on success. -/
def sharedRetrieve (fs : String → Option IniFile) (env : String → String)
    (home : Option String) (p : SharedCredentialsProvider) :
    (AuthValue × Option CredErr) × SharedCredentialsProvider :=
  let p := { p with retrieved := false }
  match sharedFilename env home p with
  | ((none, some e), p) => (({ ProviderName := "SharedCredentialsProvider" }, some e), p)
  | ((none, none), p) => (({ ProviderName := "SharedCredentialsProvider" },
                            some (.other "unreachable")), p)
  | ((some fn, _), p) =>
    let (prof, p) := sharedProfile env p
    match loadProfile fs fn prof with
    | (v, some e) => ((v, some e), p)
    | (v, none) => ((v, none), { p with retrieved := true })

/-- `SharedCredentialsProvider.IsExpired`: true until a fully successful
`Retrieve`. -/
def sharedIsExpired (p : SharedCredentialsProvider) : Bool := !p.retrieved

/-! ### Helper lemmas -/

/-- String concatenation is associative. -/
theorem string_append_assoc (a b c : String) : a ++ b ++ c = a ++ (b ++ c) := by
  apply String.ext
  simp

/-! ### C1: shape of the string-to-sign -/

/-- C1: for every request, the string-to-sign built by the signing context is
the tab-joined concatenation, in this exact order, of the HTTP method, the
URL scheme, the URL host, the canonical path+query, the canonical headers
string, the content hash, and the auth-header preamble — seven fields and
six tab separators, with empty fields occupying their slot. -/
theorem c1_string_to_sign (now : DateTime) (uuid : String) (ctx : signingCtx) :
    (build now uuid ctx).signingData =
      (build now uuid ctx).Request.Method ++ "\t" ++
      (build now uuid ctx).Request.URL.Scheme ++ "\t" ++
      (build now uuid ctx).Request.URL.Host ++ "\t" ++
      (build now uuid ctx).pathQuery ++ "\t" ++
      (build now uuid ctx).canonicalHeaders ++ "\t" ++
      (build now uuid ctx).contentHash ++ "\t" ++
      (build now uuid ctx).authHeaders := by
  cases hb : ctx.Request.Body <;>
    simp only [build, signingCtx.buildTime, signingCtx.buildNonce, signingCtx.buildPathQuery,
      signingCtx.buildCanonicalHeaders, signingCtx.buildContentHash,
      signingCtx.buildAuthHeaders, signingCtx.buildSigningKey,
      signingCtx.buildSigningData, signingCtx.buildSignedAuthHeaders, hb] <;>
    simp [joinStrings, string_append_assoc]

/-! ### C2: signing key and signature -/

/-- C2: for every credential value and formatted timestamp, the signing key
built by the context is base64(HMAC-SHA256(key = client secret, message =
formatted timestamp)) — the timestamp is the HMAC message, the secret the
HMAC key — and the final signature appended after `signature=` is
base64(HMAC-SHA256(key = that signing key, message = the string-to-sign)). -/
theorem c2_signing_key_and_signature (now : DateTime) (uuid : String) (ctx : signingCtx) :
    (build now uuid ctx).signingKey =
      base64Encode (hmacSha256 (strBytes ctx.credValues.ClientSecret)
        (strBytes (build now uuid ctx).formattedTime)) ∧
    (build now uuid ctx).signedAuthHeaders =
      (build now uuid ctx).authHeaders ++ "signature=" ++
      base64Encode (hmacSha256 (strBytes (build now uuid ctx).signingKey)
        (strBytes (build now uuid ctx).signingData)) := by
  cases hb : ctx.Request.Body <;>
    by_cases hf : ctx.formattedTime = "" <;> by_cases hn : ctx.nonce = "" <;>
      simp [build, signingCtx.buildTime, signingCtx.buildNonce, signingCtx.buildPathQuery,
        signingCtx.buildCanonicalHeaders, signingCtx.buildContentHash,
        signingCtx.buildAuthHeaders, signingCtx.buildSigningKey,
        signingCtx.buildSigningData, signingCtx.buildSignedAuthHeaders, createSignature,
        hb, hf, hn, string_append_assoc]

/-! ### Helper lemmas about `build` and `Sign` -/

/-- No build step assigns `SignedHeaderVals`; `build` leaves it untouched. -/
theorem build_SignedHeaderVals (now : DateTime) (uuid : String) (ctx : signingCtx) :
    (build now uuid ctx).SignedHeaderVals = ctx.SignedHeaderVals := by
  cases hb : ctx.Request.Body <;>
    by_cases hf : ctx.formattedTime = "" <;> by_cases hn : ctx.nonce = "" <;>
      simp [build, signingCtx.buildTime, signingCtx.buildNonce, signingCtx.buildPathQuery,
        signingCtx.buildCanonicalHeaders, signingCtx.buildContentHash,
        signingCtx.buildAuthHeaders, signingCtx.buildSigningKey,
        signingCtx.buildSigningData, signingCtx.buildSignedAuthHeaders, hb, hf, hn]

/-- The context `Sign` hands to `build`, written as an explicit record. -/
theorem signCtxOf_eq (s : Signer) (creds : AuthValue) (req : Request)
    (body : Option (List Nat)) :
    signCtxOf s creds req body =
      { Request := req, Body := body, credValues := creds,
        formattedTime := s.Timestamp, nonce := s.Nonce,
        maxBody := if s.MaxBody = 0 then 131072 else s.MaxBody,
        headersToSign := s.HeadersToSign } := by
  unfold signCtxOf
  dsimp only
  split <;> rename_i hc <;> simp [hc]

/-- `build` never reads the `Body` field of the context (the `body` argument
of `Sign`): every output of `build` except that stored field is unchanged
when `Body` is replaced. -/
theorem build_Body_irrelevant (now : DateTime) (uuid : String) (ctx : signingCtx)
    (b : Option (List Nat)) :
    build now uuid { ctx with Body := b } = { build now uuid ctx with Body := b } := by
  cases hb : ctx.Request.Body <;>
    by_cases hf : ctx.formattedTime = "" <;> by_cases hn : ctx.nonce = "" <;>
      simp [build, signingCtx.buildTime, signingCtx.buildNonce, signingCtx.buildPathQuery,
        signingCtx.buildCanonicalHeaders, signingCtx.buildContentHash,
        signingCtx.buildAuthHeaders, signingCtx.buildSigningKey,
        signingCtx.buildSigningData, signingCtx.buildSignedAuthHeaders, hb, hf, hn]

/-- `build` writes exactly the computed value into the request's
`Authorization` header, leaving the rest of the header map intact. -/
theorem build_sets_authorization (now : DateTime) (uuid : String) (ctx : signingCtx) :
    (build now uuid ctx).Request.Header =
      headerSet ctx.Request.Header "Authorization" (build now uuid ctx).signedAuthHeaders := by
  cases hb : ctx.Request.Body <;>
    by_cases hf : ctx.formattedTime = "" <;> by_cases hn : ctx.nonce = "" <;>
      simp [build, signingCtx.buildTime, signingCtx.buildNonce, signingCtx.buildPathQuery,
        signingCtx.buildCanonicalHeaders, signingCtx.buildContentHash,
        signingCtx.buildAuthHeaders, signingCtx.buildSigningKey,
        signingCtx.buildSigningData, signingCtx.buildSignedAuthHeaders, hb, hf, hn]

/-- When credential retrieval succeeds, `Sign` returns the nil header set and
no error, and its request output is the `build` output (which does not
depend on the `body` argument). -/
theorem sign_ok_form {σ : Type} (p : Provider σ) (s : Signer) (cache : CredState σ)
    (req : Request) (body : Option (List Nat)) (now : DateTime) (uuid : String)
    (v : AuthValue) (cache' : CredState σ)
    (h : credGet p cache = ((v, none), cache')) :
    Signer.Sign p s cache req body now uuid =
      { headers := none, error := none,
        request := (build now uuid (signCtxOf s v req none)).Request,
        cache := cache' } := by
  have hirr := build_Body_irrelevant now uuid (signCtxOf s v req none) body
  have he : ({ signCtxOf s v req none with Body := body } : signingCtx) =
      signCtxOf s v req body := by
    rw [signCtxOf_eq, signCtxOf_eq]
  rw [he] at hirr
  simp only [Signer.Sign, h]
  rw [hirr]
  simp [build_SignedHeaderVals, signCtxOf_eq]

/-! ### C10: the `body` argument of `Sign` is never read -/

/-- C10: two calls to `Signer.Sign` that differ only in the `body` argument
(same request, credentials, timestamp and nonce) produce identical results
in every output — returned headers, error, mutated request (and hence the
`Authorization` value), and cache state. The content hash is computed from
the request object's own body stream only. -/
theorem c10_sign_ignores_body_argument {σ : Type} (p : Provider σ) (s : Signer)
    (cache : CredState σ) (req : Request) (b1 b2 : Option (List Nat))
    (now : DateTime) (uuid : String) :
    Signer.Sign p s cache req b1 now uuid = Signer.Sign p s cache req b2 now uuid := by
  rcases h : credGet p cache with ⟨⟨v, err⟩, cache'⟩
  cases err with
  | none =>
    rw [sign_ok_form p s cache req b1 now uuid v cache' h,
        sign_ok_form p s cache req b2 now uuid v cache' h]
  | some e => simp only [Signer.Sign, h]

/-! ### C6: outputs of a successful `Sign` (corrected) -/

/-- A provider that always succeeds with fixed credentials, flipping its
state to retrieved (mirrors the shape of the environment provider). -/
def stubOkProv : Provider Bool :=
  { retrieve := fun _ =>
      (({ ClientSecret := "cs", ClientToken := "ct", AccessToken := "at",
          Host := "h.akamaiapis.net" }, none), true),
    isExpired := fun b => !b }

/-- The credential value `stubOkProv` produces. -/
def stubOkVal : AuthValue :=
  { ClientSecret := "cs", ClientToken := "ct", AccessToken := "at",
    Host := "h.akamaiapis.net" }

/-- A concrete GET request with no body. -/
def req0 : Request :=
  { Method := "GET",
    URL := { Scheme := "https", Host := "akaa-x.luna.akamaiapis.net",
             Path := "/check", RawQuery := "" },
    Header := [], Body := none }

/-- A signer with the fixed test timestamp and nonce. -/
def signer0 : Signer :=
  { Timestamp := "20140321T19:34:21+0000",
    Nonce := "nonce-xx-xxxx-xxxx-xxxx-xxxxxxxxxxxx" }

/-- A fresh credentials cache over an unretrieved `Bool`-state provider. -/
def cache0 : CredState Bool := newCredentials false

/-- The cache state after `stubOkProv` succeeds once. -/
def cache1 : CredState Bool :=
  { creds := stubOkVal, forceRefresh := false, provState := true }

/-- A fixed clock reading for the oracle inputs. -/
def dt0 : DateTime := { year := 2014, month := 3, day := 21,
                        hour := 19, minute := 34, second := 21 }

/-- C6 counterexample: at a concrete request whose credential retrieval
succeeds, `Sign` returns no error but its returned header set is the nil
`SignedHeaderVals` — not a header set with `Authorization` set, contrary to
the claim (the `Authorization` value is only written into the request). -/
theorem c6_counterexample :
    (Signer.Sign stubOkProv signer0 cache0 req0 none dt0 "u").error = none ∧
    (Signer.Sign stubOkProv signer0 cache0 req0 none dt0 "u").headers = none := by
  rw [sign_ok_form stubOkProv signer0 cache0 req0 none dt0 "u" stubOkVal cache1 rfl]
  exact ⟨rfl, rfl⟩

/-- C6 (amended): for every request whose credential retrieval succeeds,
`Sign` returns no error together with the nil header set (`SignedHeaderVals`
is never populated), and writes the computed `Authorization` header value
into the request in place. -/
theorem c6_sign_success_outputs {σ : Type} (p : Provider σ) (s : Signer)
    (cache : CredState σ) (req : Request) (body : Option (List Nat))
    (now : DateTime) (uuid : String) (v : AuthValue) (cache' : CredState σ)
    (h : credGet p cache = ((v, none), cache')) :
    (Signer.Sign p s cache req body now uuid).error = none ∧
    (Signer.Sign p s cache req body now uuid).headers = none ∧
    (Signer.Sign p s cache req body now uuid).request.Header =
      headerSet req.Header "Authorization"
        (build now uuid (signCtxOf s v req none)).signedAuthHeaders := by
  rw [sign_ok_form p s cache req body now uuid v cache' h]
  refine ⟨rfl, rfl, ?_⟩
  rw [build_sets_authorization]
  rw [signCtxOf_eq]

/-- C6 witness: the amended theorem applied at the concrete request. -/
theorem c6_sign_success_outputs_witness :
    (Signer.Sign stubOkProv signer0 cache0 req0 none dt0 "u").error = none ∧
    (Signer.Sign stubOkProv signer0 cache0 req0 none dt0 "u").headers = none ∧
    (Signer.Sign stubOkProv signer0 cache0 req0 none dt0 "u").request.Header =
      headerSet req0.Header "Authorization"
        (build dt0 "u" (signCtxOf signer0 stubOkVal req0 none)).signedAuthHeaders :=
  c6_sign_success_outputs stubOkProv signer0 cache0 req0 none dt0 "u" stubOkVal cache1 rfl

/-! ### C3: canonical path+query -/

/-- C3: the part_003 `buildPathQuery` resolves an empty raw query to the bare
path (no trailing question mark) and a non-empty raw query to
`path?rawquery`; the stale copy in `src/akamai/authentication.go` instead
emits a trailing question mark on an empty query because its empty-query
branch lacks a `return` (its assignment is dead and the `Sprintf` always
runs). -/
theorem c3_path_query_divergence :
    (∀ u : URL, buildPathQueryStr u =
      if u.RawQuery = "" then u.Path else u.Path ++ "?" ++ u.RawQuery) ∧
    buildPathQueryStr { Scheme := "https", Host := "h",
                        Path := "/diagnostic-tools/v1/locations", RawQuery := "" } =
      "/diagnostic-tools/v1/locations" ∧
    buildPathQueryAuthStr { Scheme := "https", Host := "h",
                            Path := "/diagnostic-tools/v1/locations", RawQuery := "" } =
      "/diagnostic-tools/v1/locations?" := by
  refine ⟨fun u => rfl, by decide, by decide⟩

/-! ### C5: content hash -/

/-- C5: the content hash equals base64(SHA-256(body truncated to the first
`maxBody` bytes)) if and only if the method is POST and the body is
non-empty (else it is the empty string), the request body is fully intact
after hashing, and a `MaxBody` of 0 on the signer behaves exactly as the
131072 default. Its slot in the string-to-sign is kept even when empty
(`c1_string_to_sign` exhibits the seven slots unconditionally). -/
theorem c5_content_hash (ctx : signingCtx) :
    ((signingCtx.buildContentHash ctx).contentHash =
      if ctx.Request.Method = "POST" ∧ (ctx.Request.Body.getD []).length > 0 then
        base64Encode (sha256 ((ctx.Request.Body.getD []).take ctx.maxBody))
      else "") ∧
    (signingCtx.buildContentHash ctx).Request.Body = ctx.Request.Body ∧
    (∀ (σ : Type) (p : Provider σ) (s : Signer) (cache : CredState σ) (req : Request)
       (body : Option (List Nat)) (now : DateTime) (uuid : String),
      Signer.Sign p { s with MaxBody := 0 } cache req body now uuid =
        Signer.Sign p { s with MaxBody := 131072 } cache req body now uuid) := by
  refine ⟨?_, ?_, ?_⟩
  · cases hb : ctx.Request.Body with
    | none => simp [signingCtx.buildContentHash, hb]
    | some b =>
      simp only [signingCtx.buildContentHash, hb, Option.getD_some]
      by_cases hp : ctx.Request.Method = "POST" ∧ b.length > 0
      · by_cases hl : b.length > ctx.maxBody
        · simp [hp, hl]
        · have ht : b.take ctx.maxBody = b :=
            (List.take_eq_self_iff b).mpr (Nat.le_of_not_lt hl)
          simp [hp, hl, ht]
      · simp [hp]
  · cases hb : ctx.Request.Body <;> simp [signingCtx.buildContentHash, hb]
  · intro σ p s cache req body now uuid
    rcases h : credGet p cache with ⟨⟨v, err⟩, cache'⟩
    cases err with
    | none =>
      have heq : signCtxOf { s with MaxBody := 0 } v req body =
          signCtxOf { s with MaxBody := 131072 } v req body := by
        rw [signCtxOf_eq, signCtxOf_eq]
        simp
      simp only [Signer.Sign, h, heq]
    | some e => simp only [Signer.Sign, h]

/-! ### C4: canonical headers -/

/-- Filtering a duplicate-free list for one element yields that element once
or nothing. -/
theorem filter_beq_of_nodup (hts : List String) (a : String) (h : hts.Nodup) :
    hts.filter (fun s => s == a) = if a ∈ hts then [a] else [] := by
  induction hts with
  | nil => simp
  | cons x t ih =>
    rcases List.nodup_cons.mp h with ⟨hx, ht⟩
    by_cases hxa : x = a
    · subst hxa
      have hn : x ∉ t := hx
      have : t.filter (fun s => s == x) = [] := by
        rw [ih ht]
        simp [hn]
      simp [List.filter_cons, this]
    · have hax : ¬(a = x) := fun hc => hxa hc.symm
      simp [List.filter_cons, hxa, ih ht, hax]

/-- The double loop of `buildCanonicalHeaders` reduces, for a duplicate-free
headers-to-sign list, to filtering the sorted names by membership. -/
theorem flatMap_inner_loop (hdr : Header) (hts : List String) (hnd : hts.Nodup) :
    ∀ l : List String,
      l.flatMap (fun k => (hts.filter (fun sign => sign == k)).map
        (fun _ => canonEntry hdr k)) =
      (l.filter (fun k => decide (k ∈ hts))).map (canonEntry hdr)
  | [] => by simp
  | a :: l => by
    rw [List.flatMap_cons, flatMap_inner_loop hdr hts hnd l,
        filter_beq_of_nodup hts a hnd]
    by_cases ha : a ∈ hts <;> simp [ha, List.filter_cons]

/-- C4 counterexample: header matching is case-sensitive, not
case-insensitive — a stored `Content-Type` header is dropped when the
headers-to-sign list spells it `content-type`, and kept only on an exact
match. -/
theorem c4_counterexample :
    buildCanonicalHeadersStr [("Content-Type", "text/html")] ["content-type"] = "" ∧
    buildCanonicalHeadersStr [("Content-Type", "text/html")] ["Content-Type"] =
      "content-type:text/html" := by
  constructor <;> decide

/-- C4 (amended): for every request and duplicate-free headers-to-sign list,
the canonical headers string contains exactly the request headers whose
stored name equals a list entry (case-sensitive exact match), in ascending
name order, each rendered as lowercased name `:` lowercased
whitespace-trimmed-and-collapsed value, joined by tabs; headers not in the
list never appear, and an empty list yields the empty string. -/
theorem c4_canonical_headers_case_sensitive (hdr : Header) (hts : List String)
    (hnd : hts.Nodup) :
    buildCanonicalHeadersStr hdr hts =
      joinStrings "\t"
        (((sortStrings (hdr.map Prod.fst)).filter (fun k => decide (k ∈ hts))).map
          (canonEntry hdr)) := by
  simp only [buildCanonicalHeadersStr]
  rw [flatMap_inner_loop hdr hts hnd]

/-- C4 witness: the amended theorem applied at a concrete request and list. -/
theorem c4_canonical_headers_witness :
    (["X-B", "X-A"] : List String).Nodup ∧
    buildCanonicalHeadersStr [("X-A", " a  B "), ("X-B", "c")] ["X-B", "X-A"] =
      joinStrings "\t"
        (((sortStrings (([("X-A", " a  B "), ("X-B", "c")] : Header).map Prod.fst)).filter
          (fun k => decide (k ∈ (["X-B", "X-A"] : List String)))).map
          (canonEntry [("X-A", " a  B "), ("X-B", "c")])) :=
  ⟨by decide,
   c4_canonical_headers_case_sensitive [("X-A", " a  B "), ("X-B", "c")] ["X-B", "X-A"]
     (by decide)⟩

/-! ### C7: cache behaviour on provider failure and success -/

/-- C7: on an expired cache, a failing `Retrieve` makes `Get` return the zero
credential value with the provider's error (never the stale cached value),
leaves `forceRefresh` untouched — so a cache expired through `forceRefresh`
stays expired and the next `Get` retries `Retrieve` — while a successful
`Retrieve` replaces the cached value wholesale and clears `forceRefresh`. -/
theorem c7_get_refresh_semantics {σ : Type} (p : Provider σ) (c : CredState σ)
    (hx : isExpiredC p c = true) :
    (∀ (v : AuthValue) (e : CredErr) (s' : σ),
      p.retrieve c.provState = ((v, some e), s') →
      credGet p c = (({}, some e), { c with provState := s' }) ∧
      ({ c with provState := s' } : CredState σ).forceRefresh = c.forceRefresh ∧
      (c.forceRefresh = true → isExpiredC p { c with provState := s' } = true)) ∧
    (∀ (v : AuthValue) (s' : σ),
      p.retrieve c.provState = ((v, none), s') →
      credGet p c = ((v, none),
        { creds := v, forceRefresh := false, provState := s' })) := by
  constructor
  · intro v e s' hr
    refine ⟨?_, rfl, ?_⟩
    · simp [credGet, hx, hr]
    · intro hf
      simp [isExpiredC, hf]
  · intro v s' hr
    simp [credGet, hx, hr]

/-- A provider that always fails with a fixed error and always reports
expired (the shape of an environment provider whose variable is unset). -/
def stubFailProv : Provider Unit :=
  { retrieve := fun _ => (({}, some (.other "boom")), ()),
    isExpired := fun _ => true }

/-- C7 witness: the theorem applied to a fresh cache over the failing
provider. -/
theorem c7_get_refresh_semantics_witness :
    credGet stubFailProv (newCredentials ()) =
      (({}, some (CredErr.other "boom")), { newCredentials () with provState := () }) ∧
    ({ newCredentials () with provState := () } : CredState Unit).forceRefresh =
      (newCredentials ()).forceRefresh ∧
    ((newCredentials ()).forceRefresh = true →
      isExpiredC stubFailProv { newCredentials () with provState := () } = true) :=
  (c7_get_refresh_semantics stubFailProv (newCredentials ()) rfl).1 {}
    (CredErr.other "boom") () rfl

/-! ### C9: serialized Get calls and the single-flight refresh -/

/-- A cache that is not expired serves every serialized `Get` from the cache
without any `Retrieve`. -/
theorem credGetN_not_expired {σ : Type} (p : Provider σ) (st : CredState σ)
    (h : isExpiredC p st = false) :
    ∀ m : Nat, credGetN p st m = (List.replicate m (st.creds, none), st)
  | 0 => by simp [credGetN]
  | m + 1 => by
    simp [credGetN, credGet, h, credGetN_not_expired p st h m, List.replicate_succ]

/-- C9 counterexample: with an always-failing provider and an initially
expired cache, two serialized `Get` callers each perform their own
`Retrieve` — the instrumented invocation counter reaches 2, not the
"exactly one" of the claim (on failure `forceRefresh` stays set, so the
second caller's re-check under the lock still sees an expired cache). -/
theorem c9_counterexample :
    (credGetN (instrument stubFailProv)
      { creds := {}, forceRefresh := true, provState := ((), 0) } 2).2.provState.2 = 2 := by
  decide

/-- C9 (amended): for N serialized `Get` calls on an initially expired cache
(the exclusive lock serializes refreshes), if the provider's `Retrieve`
succeeds and afterwards reports non-expired, exactly one `Retrieve` occurs
— the instrumented invocation counter ends at 1 — and every caller receives
the same retrieved value; on failure each caller retries (see the
counterexample). -/
theorem c9_single_flight {σ : Type} (p : Provider σ) (c : CredState σ)
    (v : AuthValue) (s' : σ) (n : Nat)
    (hx : isExpiredC p c = true)
    (hr : p.retrieve c.provState = ((v, none), s'))
    (he : p.isExpired s' = false) :
    credGetN (instrument p)
      { creds := c.creds, forceRefresh := c.forceRefresh, provState := (c.provState, 0) }
      (n + 1) =
    (List.replicate (n + 1) (v, none),
     { creds := v, forceRefresh := false, provState := (s', 1) }) := by
  have hx0 : isExpiredC (instrument p)
      { creds := c.creds, forceRefresh := c.forceRefresh,
        provState := (c.provState, 0) } = true := by
    simpa [isExpiredC, instrument] using hx
  have h1 : credGet (instrument p)
      { creds := c.creds, forceRefresh := c.forceRefresh, provState := (c.provState, 0) } =
      ((v, none), { creds := v, forceRefresh := false, provState := (s', 1) }) := by
    simp only [credGet, hx0]
    simp [instrument, hr]
  have hst : isExpiredC (instrument p)
      ({ creds := v, forceRefresh := false, provState := (s', 1) } :
        CredState (σ × Nat)) = false := by
    simp [isExpiredC, instrument, he]
  simp [credGetN, h1, credGetN_not_expired (instrument p) _ hst n, List.replicate_succ]

/-- C9 witness: the amended theorem applied to a succeed-once provider with
two serialized callers. -/
theorem c9_single_flight_witness :
    credGetN (instrument stubOkProv)
      { creds := ({} : AuthValue), forceRefresh := true, provState := (false, 0) } 2 =
    (List.replicate 2 (stubOkVal, none),
     { creds := stubOkVal, forceRefresh := false, provState := (true, 1) }) :=
  c9_single_flight stubOkProv (newCredentials false) stubOkVal true 1 rfl rfl rfl

/-! ### C8: shared-file provider errors -/

/-- A credentials file whose default profile lacks `access_token`. -/
def fsNoAccessToken : String → Option IniFile := fun _ =>
  some [("default", [("client_secret", "s"), ("client_token", "t"), ("host", "h")])]

/-- A credentials file whose default profile lacks `client_token`. -/
def fsNoClientToken : String → Option IniFile := fun _ =>
  some [("default", [("client_secret", "s"), ("access_token", "a"), ("host", "h")])]

/-- An empty process environment. -/
def env0 : String → String := fun _ => ""

/-- C8: a profile missing `access_token` makes `Retrieve` return
`ErrClientTokenNotFoundFile` — the same error value as a missing
`client_token` — instead of the declared-but-unused
`ErrAccessTokenNotFoundFile`, so the errors are not one-per-field distinct;
the provider state does stay unretrieved (IsExpired remains true). -/
theorem c8_access_token_error_collision :
    (sharedRetrieve fsNoAccessToken env0 (some "/home/u") { Filename := "f" }).1 =
      ({ ProviderName := "SharedCredentialsProvider" },
       some CredErr.errClientTokenNotFoundFile) ∧
    (sharedRetrieve fsNoClientToken env0 (some "/home/u") { Filename := "f" }).1 =
      ({ ProviderName := "SharedCredentialsProvider" },
       some CredErr.errClientTokenNotFoundFile) ∧
    sharedIsExpired
      (sharedRetrieve fsNoAccessToken env0 (some "/home/u") { Filename := "f" }).2 = true := by
  refine ⟨by decide, by decide, by decide⟩

end Akamai
